import Mathlib

/-!
# Shallow embedding of the INA power-monitor library

This file embeds the parts of `src/INA.h` and `src/INA.cpp` (Zanduino/INA)
that the verified properties talk about: the `inaEEPROM` / `inaDet` device
record structures and the `inaDet(inaEEPROM)` converting constructor, the
variant classification performed by `INA_Class::begin`, the device-scan loop
of `begin`, the calibration computation of `INA_Class::initDevice`, the
EEPROM record cache (`readInafromEEPROM` / `writeInatoEEPROM`), the
measurement conversions (`getShuntMicroVolts`, `getBusMicroAmps`) and the
alert-configuration methods.

Machine integers are modelled as `Nat` / `Int` with explicit reductions
(`% 2^16`, `% 2^32`, `% 2^64`, two's-complement helpers) at the points where
the C code narrows or wraps.  Register contents obtained from `readWord` are
passed around as their raw 16-bit unsigned contents (a `Nat` below `2^16`);
`sext16` reproduces the `int16_t` reinterpretation that `readWord` returns.
-/

namespace INA

/-- The `ina_Type` enumeration of `INA.h`. -/
inductive InaType where
  | INA219
  | INA226
  | INA230
  | INA231
  | INA260
  | INA3221_0
  | INA3221_1
  | INA3221_2
  | UNKNOWN
deriving DecidableEq, Repr

/-- Constant `INA_BUS_VOLTAGE_REGISTER` from `INA.h`. -/
def INA_BUS_VOLTAGE_REGISTER : Nat := 2

/-- Constant `INA_CALIBRATION_REGISTER` from `INA.h`. -/
def INA_CALIBRATION_REGISTER : Nat := 5

/-- Constant `INA_MASK_ENABLE_REGISTER` from `INA.h`. -/
def INA_MASK_ENABLE_REGISTER : Nat := 6

/-- Constant `INA_ALERT_LIMIT_REGISTER` from `INA.h`. -/
def INA_ALERT_LIMIT_REGISTER : Nat := 7

/-- Constant `INA_RESET_DEVICE` from `INA.h`. -/
def INA_RESET_DEVICE : Nat := 0x8000

/-- Constant `INA_ALERT_MASK` from `INA.h`. -/
def INA_ALERT_MASK : Nat := 0x03FF

/-- Constant `INA_DEFAULT_OPERATING_MODE` (`B111`) from `INA.h`. -/
def INA_DEFAULT_OPERATING_MODE : Nat := 7

/-- Constant `INA219_SHUNT_VOLTAGE_REGISTER` from `INA.h`. -/
def INA219_SHUNT_VOLTAGE_REGISTER : Nat := 1

/-- Constant `INA219_CURRENT_REGISTER` from `INA.h`. -/
def INA219_CURRENT_REGISTER : Nat := 4

/-- Constant `INA219_BUS_VOLTAGE_LSB` from `INA.h` (microvolts times 100). -/
def INA219_BUS_VOLTAGE_LSB : Nat := 400

/-- Constant `INA219_SHUNT_VOLTAGE_LSB` from `INA.h` (microvolts times 10). -/
def INA219_SHUNT_VOLTAGE_LSB : Nat := 100

/-- Constant `INA226_SHUNT_VOLTAGE_REGISTER` from `INA.h`. -/
def INA226_SHUNT_VOLTAGE_REGISTER : Nat := 1

/-- Constant `INA226_CURRENT_REGISTER` from `INA.h`. -/
def INA226_CURRENT_REGISTER : Nat := 4

/-- Constant `INA226_BUS_VOLTAGE_LSB` from `INA.h`. -/
def INA226_BUS_VOLTAGE_LSB : Nat := 125

/-- Constant `INA226_SHUNT_VOLTAGE_LSB` from `INA.h`. -/
def INA226_SHUNT_VOLTAGE_LSB : Nat := 25

/-- Constant `INA226_DIE_ID_VALUE` from `INA.h`. -/
def INA226_DIE_ID_VALUE : Nat := 0x2260

/-- Constant `INA260_SHUNT_VOLTAGE_REGISTER` from `INA.h` (register absent on device). -/
def INA260_SHUNT_VOLTAGE_REGISTER : Nat := 0

/-- Constant `INA260_CURRENT_REGISTER` from `INA.h`. -/
def INA260_CURRENT_REGISTER : Nat := 1

/-- Constant `INA260_BUS_VOLTAGE_LSB` from `INA.h`. -/
def INA260_BUS_VOLTAGE_LSB : Nat := 125

/-- Constant `INA3221_SHUNT_VOLTAGE_REGISTER` from `INA.h`. -/
def INA3221_SHUNT_VOLTAGE_REGISTER : Nat := 1

/-- Constant `INA3221_BUS_VOLTAGE_LSB` from `INA.h`. -/
def INA3221_BUS_VOLTAGE_LSB : Nat := 800

/-- Constant `INA3221_SHUNT_VOLTAGE_LSB` from `INA.h`. -/
def INA3221_SHUNT_VOLTAGE_LSB : Nat := 400

/-- The persisted per-device record (`inaEEPROM` struct of `INA.h`).
Bit-field widths: `type` is the 4-bit `ina_Type` tag, `operatingMode` is
4 bits, `address` 7 bits, `maxBusAmps` 5 bits and `microOhmR` 20 bits; the
numeric fields hold values inside those ranges. -/
structure inaEEPROM where
  type : InaType
  operatingMode : Nat
  address : Nat
  maxBusAmps : Nat
  microOhmR : Nat
deriving DecidableEq, Repr

/-- The in-memory per-device detail (`inaDet` struct of `INA.h`), extending
`inaEEPROM` exactly as the C++ struct inherits from it.  The three register
fields are 3-bit bit-fields; the LSB fields are `uint16_t` and the
`current_LSB` / `power_LSB` fields are `uint32_t`. -/
structure inaDet extends inaEEPROM where
  busVoltageRegister : Nat
  shuntVoltageRegister : Nat
  currentRegister : Nat
  shuntVoltage_LSB : Nat
  busVoltage_LSB : Nat
  current_LSB : Nat
  power_LSB : Nat
deriving DecidableEq, Repr

/-- An `inaDet` with every field zero, used as one concrete choice for the
indeterminate initial contents of a freshly constructed `inaDet`. -/
def inaDetZero : inaDet :=
  { type := .UNKNOWN, operatingMode := 0, address := 0, maxBusAmps := 0,
    microOhmR := 0, busVoltageRegister := 0, shuntVoltageRegister := 0,
    currentRegister := 0, shuntVoltage_LSB := 0, busVoltage_LSB := 0,
    current_LSB := 0, power_LSB := 0 }

/-- The shared `+= 2` fall-through step of the `INA3221_1` / `INA3221_2`
cases of the `inaDet` constructor (INA.cpp lines 66-71): both 3-bit register
bit-fields are incremented by two, keeping only the low 3 bits. -/
def ina3221ChannelStep (d : inaDet) : inaDet :=
  { d with busVoltageRegister := (d.busVoltageRegister + 2) % 8,
           shuntVoltageRegister := (d.shuntVoltageRegister + 2) % 8 }

/-- The converting constructor `inaDet::inaDet(inaEEPROM)` (INA.cpp lines
23-74).  C++ leaves the derived members indeterminate before the `switch`
and unassigned in the cases that do not mention them, so the indeterminate
initial contents are taken as an explicit `init` argument.  Note that the
source assigns `microOhmR = inaEE.maxBusAmps` (line 28), and that the
`INA3221_0` case has no `break` and falls through both `+= 2` channel steps.
Narrowing stores into the `uint32_t` LSB fields keep the low 32 bits. -/
def inaDetFromEE (init : inaDet) (inaEE : inaEEPROM) : inaDet :=
  let d : inaDet :=
    { init with type := inaEE.type, operatingMode := inaEE.operatingMode,
                address := inaEE.address, maxBusAmps := inaEE.maxBusAmps,
                microOhmR := inaEE.maxBusAmps }
  match inaEE.type with
  | .INA219 =>
      let cl := inaEE.maxBusAmps * 1000000000 / 32767 % 2 ^ 32
      { d with busVoltageRegister := INA_BUS_VOLTAGE_REGISTER,
               shuntVoltageRegister := INA219_SHUNT_VOLTAGE_REGISTER,
               currentRegister := INA219_CURRENT_REGISTER,
               busVoltage_LSB := INA219_BUS_VOLTAGE_LSB,
               shuntVoltage_LSB := INA219_SHUNT_VOLTAGE_LSB,
               current_LSB := cl,
               power_LSB := 20 * cl % 2 ^ 32 }
  | .INA226 | .INA230 | .INA231 =>
      let cl := inaEE.maxBusAmps * 1000000000 / 32767 % 2 ^ 32
      { d with busVoltageRegister := INA_BUS_VOLTAGE_REGISTER,
               shuntVoltageRegister := INA226_SHUNT_VOLTAGE_REGISTER,
               currentRegister := INA226_CURRENT_REGISTER,
               busVoltage_LSB := INA226_BUS_VOLTAGE_LSB,
               shuntVoltage_LSB := INA226_SHUNT_VOLTAGE_LSB,
               current_LSB := cl,
               power_LSB := 25 * cl % 2 ^ 32 }
  | .INA260 =>
      { d with busVoltageRegister := INA_BUS_VOLTAGE_REGISTER,
               shuntVoltageRegister := INA260_SHUNT_VOLTAGE_REGISTER,
               currentRegister := INA260_CURRENT_REGISTER,
               busVoltage_LSB := INA260_BUS_VOLTAGE_LSB,
               current_LSB := 1250000,
               power_LSB := 10000000 }
  | .INA3221_0 =>
      ina3221ChannelStep (ina3221ChannelStep
        { d with busVoltageRegister := INA_BUS_VOLTAGE_REGISTER,
                 shuntVoltageRegister := INA3221_SHUNT_VOLTAGE_REGISTER,
                 currentRegister := 0,
                 busVoltage_LSB := INA3221_BUS_VOLTAGE_LSB,
                 shuntVoltage_LSB := INA3221_SHUNT_VOLTAGE_LSB,
                 current_LSB := 0,
                 power_LSB := 0 })
  | .INA3221_1 => ina3221ChannelStep (ina3221ChannelStep d)
  | .INA3221_2 => ina3221ChannelStep d
  | .UNKNOWN => d

/-- The signature classification of `INA_Class::begin` (INA.cpp lines
174-199): the freshly reset configuration register is compared against the
known signatures, with the die-ID register disambiguating the devices that
share the `0x4127` configuration signature. -/
def classify (tempRegister dieId : Nat) : InaType :=
  if tempRegister = 0x399F then .INA219
  else if tempRegister = 0x4127 then
    if dieId = INA226_DIE_ID_VALUE then .INA226
    else if dieId ≠ 0 then .INA230
    else .INA231
  else if tempRegister = 0x6127 then .INA260
  else if tempRegister = 0x7127 then .INA3221_0
  else .UNKNOWN

/-- Pointwise update of an index-addressed store. -/
def upd {α : Type} (f : Nat → α) (n : Nat) (v : α) : Nat → α :=
  fun m => if m = n then v else f m

/-- One candidate address of the `begin` scan loop: whether a bus participant
acknowledged the probe, its bus address, the configuration-register contents
read back after the reset write, and the die-ID register contents. -/
structure ScanDevice where
  present : Bool
  address : Nat
  configAfterReset : Nat
  dieId : Nat
deriving DecidableEq, Repr

/-- The state threaded through the `begin` scan: the EEPROM record slots
(`writeInatoEEPROM` stores one full `inaDet` per index), the `_DeviceCount`
member, the `inaEE` class member, and per bus address whether any register
write was issued to it during the scan. -/
structure ScanState where
  eeprom : Nat → inaDet
  count : Nat
  inaEE : inaEEPROM
  written : Nat → Bool

/-- The body of the `begin` scan loop for one candidate address (INA.cpp
lines 165-222).  `maxDevices` is `EEPROM.length() / sizeof(ina)`.  When the
candidate acknowledges and `_DeviceCount < maxDevices`, the device receives
a reset write; a device whose register still reads back the reset pattern
gets its original value restored and is skipped; otherwise the signature is
classified, and a recognized device is registered through `initDevice`
(operating mode forced to the default, record stored at `_DeviceCount`) with
`_DeviceCount = (_DeviceCount + 1) % maxDevices`, the `INA3221_0` signature
registering three channel records.  `junk` stands for the indeterminate
initial contents of the constructed `inaDet` temporaries. -/
def scanStep (maxDevices maxBusAmps microOhmR : Nat) (junk : inaDet)
    (dev : ScanDevice) (s : ScanState) : ScanState :=
  if dev.present ∧ s.count < maxDevices then
    let s1 : ScanState :=
      { s with written := upd s.written dev.address true }
    if dev.configAfterReset = INA_RESET_DEVICE then
      s1
    else
      let t := classify dev.configAfterReset dev.dieId
      if t = .UNKNOWN then
        { s1 with inaEE := { s1.inaEE with type := t } }
      else
        let ee : inaEEPROM :=
          { type := t, operatingMode := s1.inaEE.operatingMode,
            address := dev.address, maxBusAmps := maxBusAmps,
            microOhmR := microOhmR }
        let ina := inaDetFromEE junk ee
        let s2 : ScanState := { s1 with inaEE := ee }
        if t = .INA3221_0 then
          let s3 : ScanState :=
            { s2 with
              eeprom := upd s2.eeprom s2.count
                  { ina with operatingMode := INA_DEFAULT_OPERATING_MODE },
              count := (s2.count + 1) % maxDevices }
          let s4 : ScanState :=
            { s3 with
              eeprom := upd s3.eeprom s3.count
                  { ina with operatingMode := INA_DEFAULT_OPERATING_MODE,
                             type := .INA3221_1 },
              count := (s3.count + 1) % maxDevices }
          { s4 with
            eeprom := upd s4.eeprom s4.count
                { ina with operatingMode := INA_DEFAULT_OPERATING_MODE,
                           type := .INA3221_2 },
            count := (s4.count + 1) % maxDevices }
        else
          { s2 with
            eeprom := upd s2.eeprom s2.count
                { ina with operatingMode := INA_DEFAULT_OPERATING_MODE },
            count := (s2.count + 1) % maxDevices }
  else s

/-- The `begin` scan over the candidate addresses in bus order (the source
iterates the fixed address range `0x40` to `0x7F`). -/
def scan (maxDevices maxBusAmps microOhmR : Nat) (junk : inaDet)
    (devs : List ScanDevice) (s : ScanState) : ScanState :=
  devs.foldl (fun s d => scanStep maxDevices maxBusAmps microOhmR junk d s) s

/-- The scan state at entry of the first `begin` call: no devices counted,
no register writes issued; the EEPROM contents and the `inaEE` member are
whatever they happen to hold. -/
def scanState0 (eeprom0 : Nat → inaDet) (ee0 : inaEEPROM) : ScanState :=
  { eeprom := eeprom0, count := 0, inaEE := ee0, written := fun _ => false }

/-- The per-class state used by the EEPROM record cache: the EEPROM slots,
the `ina` and `inaEE` members, the `_currentINA` cache key (`UINT8_MAX`
when invalid) and a count of the storage reads performed by `EEPROM.get`. -/
structure INAState where
  eeprom : Nat → inaDet
  ina : inaDet
  inaEE : inaEEPROM
  currentINA : Nat
  eepromReads : Nat

/-- `INA_Class::readInafromEEPROM` (INA.cpp lines 109-124).  When the
requested index differs from `_currentINA`, `EEPROM.get` loads the stored
record into `ina` (one storage access), `_currentINA` is updated, and the
assignment `ina = inaEE` then rebuilds `ina` from the `inaEE` member through
the converting constructor, overwriting the record just loaded from storage;
otherwise nothing happens.  `junk` stands for the indeterminate initial
contents of the constructed temporary. -/
def readInafromEEPROM (junk : inaDet) (deviceNumber : Nat) (s : INAState) :
    INAState :=
  if deviceNumber ≠ s.currentINA then
    { s with ina := inaDetFromEE junk s.inaEE,
             currentINA := deviceNumber,
             eepromReads := s.eepromReads + 1 }
  else s

/-- `INA_Class::writeInatoEEPROM` (INA.cpp lines 128-140): `EEPROM.put`
stores the full `ina` structure at the record slot of the given index. -/
def writeInatoEEPROM (deviceNumber : Nat) (s : INAState) : INAState :=
  { s with eeprom := upd s.eeprom deviceNumber s.ina }

/-- The `uint64_t` calibration quotient of `INA_Class::initDevice` (INA.cpp
lines 242-244 and 264-266): `c / (cLSB * r / 100000)` computed in 64-bit
unsigned arithmetic, so the product reduces modulo `2 ^ 64`. -/
def calib64 (c cLSB r : Nat) : Nat :=
  c / (cLSB * r % 2 ^ 64 / 100000)

/-- The calibration-register write performed by `INA_Class::initDevice`
(INA.cpp lines 240-274) as a function of the device type and the `ina`
members it reads: `some v` means `v` is written to register 5
(`INA_CALIBRATION_REGISTER`), `none` means no calibration write happens.
The 64-bit quotient is stored into the `uint16_t` local `calibration`, which
keeps its low 16 bits; the `INA260` and `INA3221` cases write nothing. -/
def calibrationWrite (t : InaType) (cLSB r : Nat) : Option Nat :=
  match t with
  | .INA219 => some (calib64 409600000 cLSB r % 2 ^ 16)
  | .INA226 | .INA230 | .INA231 => some (calib64 51200000 cLSB r % 2 ^ 16)
  | _ => none

/-- Reinterpretation of a raw 16-bit register content as the `int16_t`
value that `readWord` returns. -/
def sext16 (raw : Nat) : Int :=
  if raw % 2 ^ 16 < 2 ^ 15 then ((raw % 2 ^ 16 : Nat) : Int)
  else ((raw % 2 ^ 16 : Nat) : Int) - 2 ^ 16

/-- The unsigned 32-bit pattern of an `int32_t` value. -/
def toU32 (v : Int) : Nat := (v % 2 ^ 32).toNat

/-- The `int32_t` value of an unsigned 32-bit pattern (callers only pass
values below `2 ^ 32`). -/
def ofU32 (n : Nat) : Int :=
  if n < 2 ^ 31 then (n : Int) else (n : Int) - 2 ^ 32

/-- Wrap-around of an `Int` into `int32_t` range, as a narrowing store into
an `int32_t` performs. -/
def wrap32 (v : Int) : Int := ofU32 (toU32 v)

/-- Bitwise AND of two `int32_t` values on their two's-complement
patterns. -/
def land32 (a b : Int) : Int := ofU32 (Nat.land (toU32 a) (toU32 b))

/-- Arithmetic right shift of an `int32_t` value (what `>>` does on a
signed operand). -/
def asr32 (v : Int) (k : Nat) : Int := Int.fdiv v (2 ^ k)

/-- `INA_Class::getShuntMicroVolts` (INA.cpp lines 418-440) on the register
path taken by every type except `INA260`, as a function of the device type,
the `shuntVoltage_LSB` member and the raw 16-bit contents of the shunt
voltage register.  For the `INA3221` channel types the reading is special
cased: when bit 15 is set the value is shifted right by 3 and then masked
with `0xE000` (INA.cpp line 428), otherwise just shifted right by 3; the
result is scaled by `shuntVoltage_LSB / 10` in `int32_t` arithmetic with
C truncating division. -/
def getShuntMicroVoltsRaw (t : InaType) (shuntVoltage_LSB raw : Nat) : Int :=
  let v := sext16 raw
  let v :=
    if t = .INA3221_0 ∨ t = .INA3221_1 ∨ t = .INA3221_2 then
      if land32 v 0x8000 ≠ 0 then land32 (asr32 v 3) 0xE000
      else asr32 v 3
    else v
  Int.tdiv (wrap32 (v * (shuntVoltage_LSB : Int))) 10

/-- `INA_Class::getShuntMicroVolts` on the `INA260` path (INA.cpp lines
421-423): the shunt voltage is derived from the measured bus current,
`busMicroAmps / 200` with C truncating division. -/
def getShuntMicroVolts260 (busMicroAmps : Int) : Int :=
  Int.tdiv busMicroAmps 200

/-- Whether a type is one of the three `INA3221` channel types. -/
def isINA3221 : InaType → Bool
  | .INA3221_0 | .INA3221_1 | .INA3221_2 => true
  | _ => false

/-- The `INA3221` branch of `INA_Class::getBusMicroAmps` (INA.cpp lines
447-449): the shunt microvolt value is multiplied by the `int32_t` quotient
`1000000 / microOhmR`, the quotient being computed first. -/
def getBusMicroAmps3221 (shuntMicroVolts : Int) (microOhmR : Nat) : Int :=
  wrap32 (shuntMicroVolts * Int.tdiv 1000000 (microOhmR : Int))

/-- The current-register branch of `INA_Class::getBusMicroAmps` (INA.cpp
lines 451-452): the signed register reading times `current_LSB`, divided by
1000, computed in `int64_t` (wide enough never to wrap here) and stored into
the `int32_t` result. -/
def getBusMicroAmpsReg (rawCurrent current_LSB : Nat) : Int :=
  wrap32 (Int.tdiv (sext16 rawCurrent * (current_LSB : Int)) 1000)

/-- `INA_Class::getBusMicroAmps` (INA.cpp lines 444-455) as a function of
the device type, the raw contents of its current register, the shunt
microvolt value `getShuntMicroVolts` would return, and the `current_LSB`
and `microOhmR` members. -/
def getBusMicroAmps (t : InaType) (rawCurrent : Nat) (shuntMicroVolts : Int)
    (current_LSB microOhmR : Nat) : Int :=
  if isINA3221 t then getBusMicroAmps3221 shuntMicroVolts microOhmR
  else getBusMicroAmpsReg rawCurrent current_LSB

/-- The per-iteration poll value `cvBits` of `INA_Class::waitForConversion`
(INA.cpp lines 511-529) as a function of the device type and the raw 16-bit
contents read from the polled register; the spin loop exits exactly when
this value is non-zero.  Note the `INA219` case computes
`readWord(INA_BUS_VOLTAGE_REGISTER, ...) | 2` (INA.cpp line 514). -/
def conversionPollBits (t : InaType) (reading : Nat) : Nat :=
  match t with
  | .INA219 => reading % 2 ^ 16 ||| 2
  | .INA226 | .INA230 | .INA231 | .INA260 => Nat.land (reading % 2 ^ 16) 8
  | .INA3221_0 | .INA3221_1 | .INA3221_2 => Nat.land (reading % 2 ^ 16) 1
  | .UNKNOWN => 1

/-- The conversion-ready flag the polled register carries, as the source
documents it next to each poll (INA.cpp lines 514, 521, 526): bit mask 2 of
the bus-voltage register for `INA219` ("Bit 2 set denotes ready"), bit mask
8 of the mask/enable register for the `INA226` family and `INA260`, and bit
mask 1 of the `INA3221` mask register. -/
def conversionReadyBit (t : InaType) (reading : Nat) : Nat :=
  match t with
  | .INA219 => Nat.land (reading % 2 ^ 16) 2
  | .INA226 | .INA230 | .INA231 | .INA260 => Nat.land (reading % 2 ^ 16) 8
  | .INA3221_0 | .INA3221_1 | .INA3221_2 => Nat.land (reading % 2 ^ 16) 1
  | .UNKNOWN => 1

/-- The Arduino `bitSet` macro: set bit `b` of `x`. -/
def bitSet (x b : Nat) : Nat := x ||| 1 <<< b

/-- The unsigned 16-bit pattern stored when an `int32_t` value is narrowed
into a `uint16_t` variable. -/
def toU16 (v : Int) : Nat := toU32 v % 2 ^ 16

/-- One register write issued to a device over the bus. -/
structure RegWrite where
  reg : Nat
  val : Nat
deriving DecidableEq, Repr

/-- The per-matched-device body of `INA_Class::AlertOnConversion` (INA.cpp
lines 546-558) as a function of the device record and the mask/enable
register contents the supported branch would read: the returned flag is the
value assigned to `returnCode`, the list the register writes issued to the
device. -/
def AlertOnConversionStep (alertState : Bool) (d : inaDet)
    (maskReading : Nat) : Bool × List RegWrite :=
  match d.type with
  | .INA226 | .INA230 | .INA231 | .INA260 =>
      let a := Nat.land maskReading INA_ALERT_MASK
      let a := if alertState then bitSet a 10 else a
      (true, [⟨INA_MASK_ENABLE_REGISTER, a⟩])
  | _ => (false, [])

/-- The per-matched-device body of `INA_Class::AlertOnShuntOverVoltage`
(INA.cpp lines 576-591): supported on the `INA226` family only; when
`alertState` holds, bit 15 is set and the `int32_t` threshold
`milliVolts * 1000 / shuntVoltage_LSB` is narrowed to `uint16_t` and written
to the alert-limit register before the mask write. -/
def AlertOnShuntOverVoltageStep (alertState : Bool) (milliVolts : Int)
    (d : inaDet) (maskReading : Nat) : Bool × List RegWrite :=
  match d.type with
  | .INA226 | .INA230 | .INA231 =>
      let a := Nat.land maskReading INA_ALERT_MASK
      if alertState then
        let threshold :=
          toU16 (Int.tdiv (wrap32 (milliVolts * 1000)) (d.shuntVoltage_LSB : Int))
        (true, [⟨INA_ALERT_LIMIT_REGISTER, threshold⟩,
                ⟨INA_MASK_ENABLE_REGISTER, bitSet a 15⟩])
      else (true, [⟨INA_MASK_ENABLE_REGISTER, a⟩])
  | _ => (false, [])

/-- The per-matched-device body of `INA_Class::AlertOnShuntUnderVoltage`
(INA.cpp lines 609-623): like the over-voltage variant but setting
bit 14. -/
def AlertOnShuntUnderVoltageStep (alertState : Bool) (milliVolts : Int)
    (d : inaDet) (maskReading : Nat) : Bool × List RegWrite :=
  match d.type with
  | .INA226 | .INA230 | .INA231 =>
      let a := Nat.land maskReading INA_ALERT_MASK
      if alertState then
        let threshold :=
          toU16 (Int.tdiv (wrap32 (milliVolts * 1000)) (d.shuntVoltage_LSB : Int))
        (true, [⟨INA_ALERT_LIMIT_REGISTER, threshold⟩,
                ⟨INA_MASK_ENABLE_REGISTER, bitSet a 14⟩])
      else (true, [⟨INA_MASK_ENABLE_REGISTER, a⟩])
  | _ => (false, [])

/-- The per-matched-device body of `INA_Class::AlertOnBusOverVoltage`
(INA.cpp lines 641-656): supported on the `INA226` family and `INA260`;
bit 13, threshold `milliVolts * 100 / busVoltage_LSB`. -/
def AlertOnBusOverVoltageStep (alertState : Bool) (milliVolts : Int)
    (d : inaDet) (maskReading : Nat) : Bool × List RegWrite :=
  match d.type with
  | .INA226 | .INA230 | .INA231 | .INA260 =>
      let a := Nat.land maskReading INA_ALERT_MASK
      if alertState then
        let threshold :=
          toU16 (Int.tdiv (wrap32 (milliVolts * 100)) (d.busVoltage_LSB : Int))
        (true, [⟨INA_ALERT_LIMIT_REGISTER, threshold⟩,
                ⟨INA_MASK_ENABLE_REGISTER, bitSet a 13⟩])
      else (true, [⟨INA_MASK_ENABLE_REGISTER, a⟩])
  | _ => (false, [])

/-- The per-matched-device body of `INA_Class::AlertOnBusUnderVoltage`
(INA.cpp lines 674-689): bit 12, otherwise as the over-voltage variant. -/
def AlertOnBusUnderVoltageStep (alertState : Bool) (milliVolts : Int)
    (d : inaDet) (maskReading : Nat) : Bool × List RegWrite :=
  match d.type with
  | .INA226 | .INA230 | .INA231 | .INA260 =>
      let a := Nat.land maskReading INA_ALERT_MASK
      if alertState then
        let threshold :=
          toU16 (Int.tdiv (wrap32 (milliVolts * 100)) (d.busVoltage_LSB : Int))
        (true, [⟨INA_ALERT_LIMIT_REGISTER, threshold⟩,
                ⟨INA_MASK_ENABLE_REGISTER, bitSet a 12⟩])
      else (true, [⟨INA_MASK_ENABLE_REGISTER, a⟩])
  | _ => (false, [])

/-- The per-matched-device body of `INA_Class::AlertOnPowerOverLimit`
(INA.cpp lines 707-722): bit 11; the threshold `milliAmps * 1000000 /
power_LSB` divides an `int32_t` by the `uint32_t` member, so both are
converted to `uint32_t` and the division is unsigned. -/
def AlertOnPowerOverLimitStep (alertState : Bool) (milliAmps : Int)
    (d : inaDet) (maskReading : Nat) : Bool × List RegWrite :=
  match d.type with
  | .INA226 | .INA230 | .INA231 | .INA260 =>
      let a := Nat.land maskReading INA_ALERT_MASK
      if alertState then
        let threshold := toU32 (wrap32 (milliAmps * 1000000)) / d.power_LSB % 2 ^ 16
        (true, [⟨INA_ALERT_LIMIT_REGISTER, threshold⟩,
                ⟨INA_MASK_ENABLE_REGISTER, bitSet a 11⟩])
      else (true, [⟨INA_MASK_ENABLE_REGISTER, a⟩])
  | _ => (false, [])

/-- The per-iteration device-selection test shared by the alert methods:
`deviceNumber == UINT8_MAX || deviceNumber == i` when `byEq` holds
(`AlertOnConversion`, `AlertOnShuntOverVoltage`), and
`deviceNumber == UINT8_MAX || deviceNumber % _DeviceCount == i` for the
other four methods. -/
def alertMatches (byEq : Bool) (count deviceNumber i : Nat) : Bool :=
  deviceNumber == 255 || (if byEq then deviceNumber == i else deviceNumber % count == i)

/-- The `for` loop shared by the six alert methods (e.g. INA.cpp lines
543-560): iterate over the registered devices, and on each selected device
run the per-device body, threading `returnCode` and collecting the register
writes issued to each selected device index. -/
def alertRun (step : inaDet → Bool × List RegWrite) (byEq : Bool)
    (count deviceNumber : Nat) :
    List inaDet → Nat → Bool → Bool × List (Nat × List RegWrite)
  | [], _, rc => (rc, [])
  | d :: rest, i, rc =>
      if alertMatches byEq count deviceNumber i then
        let p := step d
        let q := alertRun step byEq count deviceNumber rest (i + 1) p.1
        (q.1, (i, p.2) :: q.2)
      else
        alertRun step byEq count deviceNumber rest (i + 1) rc

/-- `INA_Class::AlertOnConversion` (INA.cpp lines 539-562) over the list of
registered device records; `readMask` gives the mask/enable register
contents read from a device address. -/
def AlertOnConversion (alertState : Bool) (readMask : Nat → Nat)
    (devices : List inaDet) (deviceNumber : Nat) :
    Bool × List (Nat × List RegWrite) :=
  alertRun (fun d => AlertOnConversionStep alertState d (readMask d.address))
    true devices.length deviceNumber devices 0 false

/-- `INA_Class::AlertOnShuntOverVoltage` (INA.cpp lines 568-595). -/
def AlertOnShuntOverVoltage (alertState : Bool) (milliVolts : Int)
    (readMask : Nat → Nat) (devices : List inaDet) (deviceNumber : Nat) :
    Bool × List (Nat × List RegWrite) :=
  alertRun
    (fun d => AlertOnShuntOverVoltageStep alertState milliVolts d (readMask d.address))
    true devices.length deviceNumber devices 0 false

/-- `INA_Class::AlertOnShuntUnderVoltage` (INA.cpp lines 601-627); note its
`returnCode` starts out `true`. -/
def AlertOnShuntUnderVoltage (alertState : Bool) (milliVolts : Int)
    (readMask : Nat → Nat) (devices : List inaDet) (deviceNumber : Nat) :
    Bool × List (Nat × List RegWrite) :=
  alertRun
    (fun d => AlertOnShuntUnderVoltageStep alertState milliVolts d (readMask d.address))
    false devices.length deviceNumber devices 0 true

/-- `INA_Class::AlertOnBusOverVoltage` (INA.cpp lines 633-660). -/
def AlertOnBusOverVoltage (alertState : Bool) (milliVolts : Int)
    (readMask : Nat → Nat) (devices : List inaDet) (deviceNumber : Nat) :
    Bool × List (Nat × List RegWrite) :=
  alertRun
    (fun d => AlertOnBusOverVoltageStep alertState milliVolts d (readMask d.address))
    false devices.length deviceNumber devices 0 true

/-- `INA_Class::AlertOnBusUnderVoltage` (INA.cpp lines 666-693). -/
def AlertOnBusUnderVoltage (alertState : Bool) (milliVolts : Int)
    (readMask : Nat → Nat) (devices : List inaDet) (deviceNumber : Nat) :
    Bool × List (Nat × List RegWrite) :=
  alertRun
    (fun d => AlertOnBusUnderVoltageStep alertState milliVolts d (readMask d.address))
    false devices.length deviceNumber devices 0 true

/-- `INA_Class::AlertOnPowerOverLimit` (INA.cpp lines 699-726). -/
def AlertOnPowerOverLimit (alertState : Bool) (milliAmps : Int)
    (readMask : Nat → Nat) (devices : List inaDet) (deviceNumber : Nat) :
    Bool × List (Nat × List RegWrite) :=
  alertRun
    (fun d => AlertOnPowerOverLimitStep alertState milliAmps d (readMask d.address))
    false devices.length deviceNumber devices 0 true

/-! ## Supporting lemmas -/

theorem scanStep_unknown_skips (maxDevices maxBusAmps microOhmR : Nat)
    (junk : inaDet) (dev : ScanDevice) (s : ScanState)
    (h : classify dev.configAfterReset dev.dieId = .UNKNOWN) :
    (scanStep maxDevices maxBusAmps microOhmR junk dev s).count = s.count ∧
    (scanStep maxDevices maxBusAmps microOhmR junk dev s).eeprom = s.eeprom := by
  unfold scanStep
  by_cases hp : dev.present ∧ s.count < maxDevices
  · by_cases hr : dev.configAfterReset = INA_RESET_DEVICE
    · simp [hp, hr]
    · simp [hp, hr, h]
  · simp [hp]

theorem classify_unknown (cfg die : Nat) (h1 : cfg ≠ 0x399F) (h2 : cfg ≠ 0x4127)
    (h3 : cfg ≠ 0x6127) (h4 : cfg ≠ 0x7127) : classify cfg die = .UNKNOWN := by
  simp [classify, h1, h2, h3, h4]

/-! ## Claims -/

/-- C1: the identification scan classifies each 16-bit post-reset
configuration value to exactly one variant: `0x399F` to INA219; `0x4127` to
INA226 when the die-ID register equals `0x2260`, to INA230 for any other
non-zero die ID, and to INA231 for a zero die ID; `0x6127` to INA260;
`0x7127` to the INA3221 family; and any other value to UNKNOWN, in which
case the scan step adds no record and leaves the device count unchanged. -/
theorem claim1_identification :
    (∀ die, classify 0x399F die = .INA219) ∧
    classify 0x4127 INA226_DIE_ID_VALUE = .INA226 ∧
    (∀ die, die ≠ INA226_DIE_ID_VALUE → die ≠ 0 → classify 0x4127 die = .INA230) ∧
    classify 0x4127 0 = .INA231 ∧
    (∀ die, classify 0x6127 die = .INA260) ∧
    (∀ die, classify 0x7127 die = .INA3221_0) ∧
    (∀ cfg die, cfg ≠ 0x399F → cfg ≠ 0x4127 → cfg ≠ 0x6127 → cfg ≠ 0x7127 →
      classify cfg die = .UNKNOWN ∧
      ∀ maxDevices maxBusAmps microOhmR junk dev s,
        dev.configAfterReset = cfg → dev.dieId = die →
        (scanStep maxDevices maxBusAmps microOhmR junk dev s).count = s.count ∧
        (scanStep maxDevices maxBusAmps microOhmR junk dev s).eeprom = s.eeprom) := by
  refine ⟨fun die => rfl, rfl, fun die hd h0 => ?_, rfl, fun die => rfl,
    fun die => rfl, fun cfg die h1 h2 h3 h4 => ⟨classify_unknown cfg die h1 h2 h3 h4, ?_⟩⟩
  · simp [classify, hd, h0]
  · intro maxDevices maxBusAmps microOhmR junk dev s hcfg hdie
    exact scanStep_unknown_skips maxDevices maxBusAmps microOhmR junk dev s
      (by rw [hcfg, hdie]; exact classify_unknown cfg die h1 h2 h3 h4)

/-- Witness for C1 at concrete inputs. -/
theorem claim1_identification_witness :
    classify 0x4127 5 = .INA230 ∧
    classify 0x1234 7 = .UNKNOWN ∧
    (scanStep 8 1 100000 inaDetZero ⟨true, 0x40, 0x1234, 7⟩
        (scanState0 (fun _ => inaDetZero) ⟨.UNKNOWN, 0, 0, 0, 0⟩)).count =
      (scanState0 (fun _ => inaDetZero) ⟨.UNKNOWN, 0, 0, 0, 0⟩).count := by
  refine ⟨claim1_identification.2.2.1 5 (by decide) (by decide), ?_, ?_⟩
  · exact (claim1_identification.2.2.2.2.2.2 0x1234 7 (by decide) (by decide)
      (by decide) (by decide)).1
  · exact ((claim1_identification.2.2.2.2.2.2 0x1234 7 (by decide) (by decide)
      (by decide) (by decide)).2 8 1 100000 inaDetZero ⟨true, 0x40, 0x1234, 7⟩
      (scanState0 (fun _ => inaDetZero) ⟨.UNKNOWN, 0, 0, 0, 0⟩) rfl rfl).1

/-- The `begin` scan run against persistent storage with capacity for
exactly one record and two responding INA219 devices at `0x40` and
`0x41`. -/
def capacityScanExample : ScanState :=
  scan 1 1 100000 inaDetZero
    [⟨true, 0x40, 0x399F, 0⟩, ⟨true, 0x41, 0x399F, 0⟩]
    (scanState0 (fun _ => inaDetZero) ⟨.UNKNOWN, 0, 0, 0, 0⟩)

/-- C4: with capacity for exactly one record and two recognizable devices,
`begin` wraps the device count back to zero through
`_DeviceCount = (_DeviceCount + 1) % maxDevices`, so the guard
`_DeviceCount < maxDevices` never blocks the second candidate: the returned
count is 0 (not 1), the first device's record at slot 0 is overwritten by
the second device's record, and the second candidate received a reset write
instead of being left untouched. -/
theorem claim4_capacity_overflow :
    capacityScanExample.count = 0 ∧
    (capacityScanExample.eeprom 0).address = 0x41 ∧
    (capacityScanExample.eeprom 0).type = .INA219 ∧
    capacityScanExample.written 0x41 = true := by
  decide

/-- A stored record whose `microOhmR` field holds 100000 (a 0.1 ohm
shunt) with `maxBusAmps` 1, together with the matching `inaEE` member, as
`begin` would leave them for the first registered device. -/
def roundTripEE : inaEEPROM :=
  { type := .INA219, operatingMode := 7, address := 0x40, maxBusAmps := 1,
    microOhmR := 100000 }

/-- The class state before the store/load round trip: the record to store
sits in `ina`, `inaEE` holds the matching scan parameters, and the cache key
`_currentINA` is invalid (`UINT8_MAX`). -/
def roundTripState : INAState :=
  { eeprom := fun _ => inaDetZero,
    ina := { inaDetFromEE inaDetZero roundTripEE with microOhmR := 100000 },
    inaEE := roundTripEE,
    currentINA := 255,
    eepromReads := 0 }

/-- C5: storing the record at index 0 and immediately loading index 0 does
not return the stored record: the store keeps `microOhmR = 100000`, but the
load rebuilds `ina` from the `inaEE` member through the converting
constructor, whose `microOhmR = inaEE.maxBusAmps` assignment (INA.cpp line
28, against its own "copy values read from EEPROM" comment) yields
`microOhmR = 1`.  The cache-hit half of the claim does hold: loading the
cached index performs no storage access. -/
theorem claim5_roundtrip :
    ((writeInatoEEPROM 0 roundTripState).eeprom 0).microOhmR = 100000 ∧
    ((readInafromEEPROM inaDetZero 0 (writeInatoEEPROM 0 roundTripState)).ina).microOhmR = 1 ∧
    (readInafromEEPROM inaDetZero 0 (writeInatoEEPROM 0 roundTripState)).eepromReads = 1 ∧
    (readInafromEEPROM inaDetZero 3 { roundTripState with currentINA := 3 }).eepromReads = 0 := by
  decide

/-- Counterexample to C2 as stated: the INA3221 first channel is a variant
other than INA260, yet the constructor sets its `current_LSB` to 0, not to
`maxBusAmps * 1000000000 / 32767`. -/
theorem claim2_counterexample :
    (inaDetFromEE inaDetZero ⟨.INA3221_0, 7, 0x40, 1, 100000⟩).current_LSB = 0 ∧
    1 * 1000000000 / 32767 = 30518 ∧
    (inaDetFromEE inaDetZero ⟨.INA3221_0, 7, 0x40, 1, 100000⟩).current_LSB ≠
      1 * 1000000000 / 32767 := by
  decide

/-- C2 (amended): constructing `inaDet` from a record sets `current_LSB` to
`maxBusAmps * 1000000000 / 32767` nanoamps for INA219 and the
INA226/INA230/INA231 family, to the fixed 1250000 nA (1.25 mA per bit)
for INA260 regardless of `maxBusAmps`, and to 0 for the INA3221 first
channel (the second and third channel cases leave the field unassigned, so
it keeps its indeterminate initial contents); for `maxBusAmps = 1` on an
INA219 record the derived `current_LSB` is `1000000000 / 32767` truncated
to an integer. -/
theorem claim2_current_lsb (init : inaDet) (ee : inaEEPROM)
    (hmax : ee.maxBusAmps < 32) :
    ((ee.type = .INA219 ∨ ee.type = .INA226 ∨ ee.type = .INA230 ∨ ee.type = .INA231) →
      (inaDetFromEE init ee).current_LSB = ee.maxBusAmps * 1000000000 / 32767) ∧
    (ee.type = .INA260 → (inaDetFromEE init ee).current_LSB = 1250000) ∧
    (ee.type = .INA3221_0 → (inaDetFromEE init ee).current_LSB = 0) ∧
    ((ee.type = .INA3221_1 ∨ ee.type = .INA3221_2) →
      (inaDetFromEE init ee).current_LSB = init.current_LSB) ∧
    (ee.type = .INA219 → ee.maxBusAmps = 1 →
      (inaDetFromEE init ee).current_LSB = 1000000000 / 32767) := by
  obtain ⟨t, om, ad, mba, mor⟩ := ee
  simp only at hmax ⊢
  have hb : mba * 1000000000 / 32767 < 4294967296 := by
    calc mba * 1000000000 / 32767 ≤ 31 * 1000000000 / 32767 :=
          Nat.div_le_div_right (Nat.mul_le_mul_right _ (Nat.lt_succ_iff.mp hmax))
      _ < 4294967296 := by decide
  refine ⟨?_, ?_, ?_, ?_, ?_⟩
  · rintro (rfl | rfl | rfl | rfl) <;>
      simp [inaDetFromEE, Nat.mod_eq_of_lt hb]
  · rintro rfl; simp [inaDetFromEE]
  · rintro rfl; simp [inaDetFromEE, ina3221ChannelStep]
  · rintro (rfl | rfl) <;> simp [inaDetFromEE, ina3221ChannelStep]
  · rintro rfl rfl; simp [inaDetFromEE]

/-- Witness for C2 at concrete inputs. -/
theorem claim2_current_lsb_witness :
    (inaDetFromEE inaDetZero ⟨.INA219, 7, 0x40, 1, 100000⟩).current_LSB =
      1 * 1000000000 / 32767 ∧
    (inaDetFromEE inaDetZero ⟨.INA260, 7, 0x40, 1, 100000⟩).current_LSB = 1250000 :=
  ⟨(claim2_current_lsb inaDetZero ⟨.INA219, 7, 0x40, 1, 100000⟩ (by decide)).1
      (Or.inl rfl),
   (claim2_current_lsb inaDetZero ⟨.INA260, 7, 0x40, 1, 100000⟩ (by decide)).2.1 rfl⟩

/-- Counterexample to C3 as stated: for an INA219 with `maxBusAmps = 1`
(`current_LSB = 30518`) and a representable 1 milliohm shunt
(`shuntMicroOhms = 1000`), the 64-bit quotient
`409600000 / (current_LSB * shuntMicroOhms / 100000) = 1342950` does not
fit the `uint16_t` local it is stored into, so the value written to the
calibration register is `32230`, not the claimed quotient. -/
theorem claim3_counterexample :
    (inaDetFromEE inaDetZero ⟨.INA219, 7, 0x40, 1, 1000⟩).current_LSB = 30518 ∧
    calibrationWrite .INA219 30518 1000 = some 32230 ∧
    4096 * 100000 / (30518 * 1000 / 100000) = 1342950 ∧
    calibrationWrite .INA219 30518 1000 ≠
      some (4096 * 100000 / (30518 * 1000 / 100000)) := by
  decide

/-- C3 (amended): for the variants with a calibration register, `initDevice`
computes `variantCalibrationConstant * 100000 / (current_LSB *
shuntMicroOhms / 100000)` — constants `409600000` for INA219 and `51200000`
for the INA226 family — in 64-bit intermediates that never overflow for
field-representable inputs (`current_LSB < 2^32`, `shuntMicroOhms < 2^20`),
and writes that quotient truncated to its low 16 bits to the calibration
register; for INA260 and the INA3221 channels no calibration register is
written.  The computation is a pure function of its inputs, hence
deterministic. -/
theorem claim3_calibration (t : InaType) (cLSB r : Nat)
    (hc : cLSB < 2 ^ 32) (hr : r < 2 ^ 20) :
    (t = .INA219 →
      calibrationWrite t cLSB r = some (409600000 / (cLSB * r / 100000) % 2 ^ 16)) ∧
    ((t = .INA226 ∨ t = .INA230 ∨ t = .INA231) →
      calibrationWrite t cLSB r = some (51200000 / (cLSB * r / 100000) % 2 ^ 16)) ∧
    ((t = .INA260 ∨ t = .INA3221_0 ∨ t = .INA3221_1 ∨ t = .INA3221_2) →
      calibrationWrite t cLSB r = none) := by
  have hprod : cLSB * r < 18446744073709551616 :=
    lt_trans (Nat.mul_lt_mul'' hc hr) (by decide)
  refine ⟨?_, ?_, ?_⟩
  · rintro rfl; simp [calibrationWrite, calib64, Nat.mod_eq_of_lt hprod]
  · rintro (rfl | rfl | rfl) <;>
      simp [calibrationWrite, calib64, Nat.mod_eq_of_lt hprod]
  · rintro (rfl | rfl | rfl | rfl) <;> simp [calibrationWrite]

/-- Witness for C3 at concrete inputs. -/
theorem claim3_calibration_witness :
    calibrationWrite .INA219 30518 100000 =
      some (409600000 / (30518 * 100000 / 100000) % 2 ^ 16) ∧
    calibrationWrite .INA226 30518 100000 =
      some (51200000 / (30518 * 100000 / 100000) % 2 ^ 16) ∧
    calibrationWrite .INA260 30518 100000 = none :=
  ⟨(claim3_calibration .INA219 30518 100000 (by decide) (by decide)).1 rfl,
   (claim3_calibration .INA226 30518 100000 (by decide) (by decide)).2.1 (Or.inl rfl),
   (claim3_calibration .INA260 30518 100000 (by decide) (by decide)).2.2 (Or.inl rfl)⟩

theorem sext16_bounds (raw : Nat) : -32768 ≤ sext16 raw ∧ sext16 raw < 32768 := by
  unfold sext16
  have h : raw % 2 ^ 16 < 2 ^ 16 := Nat.mod_lt _ (by decide)
  split <;> push_cast <;> omega

theorem wrap32_eq_self (v : Int) (h1 : -2147483648 ≤ v) (h2 : v < 2147483648) :
    wrap32 v = v := by
  unfold wrap32 ofU32 toU32
  have h3 : 0 ≤ v % 4294967296 := Int.emod_nonneg v (by norm_num)
  have h4 : v % 4294967296 < 4294967296 := Int.emod_lt_of_pos v (by norm_num)
  split <;> omega

theorem tdiv1000_small (x : Int) (h : x.natAbs ≤ 68719476736) :
    -2147483648 ≤ Int.tdiv x 1000 ∧ Int.tdiv x 1000 < 2147483648 := by
  have h1 : (Int.tdiv x 1000).natAbs = x.natAbs / 1000 := Int.natAbs_tdiv x 1000
  have h2 : x.natAbs / 1000 ≤ 68719476 := by omega
  omega

/-- C6: sign handling of the INA3221 shunt reading is broken.  For the raw
register contents `0xFFF8` (the `int16_t` value -8, sign bit set) on an
INA3221 channel, the code computes `(shuntVoltage >> 3) & 0xE000`, whose
`int32_t` result is the positive constant `0xE000 = 57344`, and returns
2293760 microvolts; a reading correctly sign-extended through the discarded
low bits would give `(-8 >> 3) * 400 / 10 = -40` microvolts. -/
theorem claim6_sign_extension :
    getShuntMicroVoltsRaw .INA3221_0 INA3221_SHUNT_VOLTAGE_LSB 0xFFF8 = 2293760 ∧
    Int.tdiv (asr32 (sext16 0xFFF8) 3 * (INA3221_SHUNT_VOLTAGE_LSB : Int)) 10 = -40 := by
  decide

/-- C7: the INA219 arm of the `waitForConversion` polling loop never waits.
The loop exit value is `readWord(INA_BUS_VOLTAGE_REGISTER,...) | 2`, which
is non-zero for every possible register reading, so the loop exits after the
first read even when the conversion-ready bit (mask 2, per the source's own
"Bit 2 set denotes ready" comment) is clear — as it is for reading 0. -/
theorem claim7_conversion_poll :
    (∀ reading : Nat, conversionPollBits .INA219 reading ≠ 0) ∧
    conversionReadyBit .INA219 0 = 0 := by
  refine ⟨fun reading h => ?_, by decide⟩
  have h1 := congrArg (fun n => Nat.testBit n 1) h
  simp [conversionPollBits, Nat.testBit_lor] at h1
  exact absurd h1.2 (by decide)

/-- The INA260 clause of claim C9, following the spec sentence "current is
derived from shunt microvolts via Ohm's law against its fixed internal shunt
value", taken with the code's own scale factor of 200 between the two
quantities (INA.cpp line 423). -/
def ina260CurrentFromShuntClaim (shuntMicroVolts : Int) : Int :=
  shuntMicroVolts * 200

/-- Counterexample to C9 as stated: for an INA260 the code reads the current
register like any other variant (the shunt-microvolt value is ignored by
`getBusMicroAmps`), and the current is not recoverable from the shunt
microvolts by Ohm's law: with raw current register 1 and the fixed
`current_LSB = 1250000`, the current is 1250 uA while the shunt microvolts
are `1250 / 200 = 6`, and neither `6 * 200 = 1200` (the code's scale) nor
`6 * 500` (the 2 milliohm datasheet value) gives back 1250. -/
theorem claim9_counterexample :
    getBusMicroAmps .INA260 1 999999 1250000 77 = 1250 ∧
    getShuntMicroVolts260 1250 = 6 ∧
    ina260CurrentFromShuntClaim (getShuntMicroVolts260 1250) = 1200 ∧
    getBusMicroAmps .INA260 1 999999 1250000 77 ≠
      ina260CurrentFromShuntClaim (getShuntMicroVolts260 1250) ∧
    getShuntMicroVolts260 1250 * 500 ≠ 1250 := by
  decide

/-- C9 (amended): `getBusMicroAmps` returns
`rawCurrentRegister * current_LSB / 1000` for every variant that is not an
INA3221 channel — including the shuntless INA260; it is instead the INA260
shunt-microvolt reading that is derived from the measured current via the
fixed internal-shunt division `busMicroAmps / 200`; and for the INA3221
channels (no current register) the current is derived from the shunt
microvolt reading and the configured shunt resistance as
`shuntMicroVolts * (1000000 / microOhmR)`. -/
theorem claim9_current_paths (t : InaType) (rawCurrent cLSB microOhmR : Nat)
    (v : Int) (hc : cLSB ≤ 2097152) :
    (isINA3221 t = false →
      getBusMicroAmps t rawCurrent v cLSB microOhmR =
        Int.tdiv (sext16 rawCurrent * (cLSB : Int)) 1000) ∧
    (getShuntMicroVolts260 (getBusMicroAmps .INA260 rawCurrent v cLSB microOhmR) =
      Int.tdiv (Int.tdiv (sext16 rawCurrent * (cLSB : Int)) 1000) 200) ∧
    (isINA3221 t = true →
      getBusMicroAmps t rawCurrent v cLSB microOhmR =
        wrap32 (v * Int.tdiv 1000000 (microOhmR : Int))) := by
  have hx : (sext16 rawCurrent * (cLSB : Int)).natAbs ≤ 68719476736 := by
    have hmul : (sext16 rawCurrent * (cLSB : Int)).natAbs
        = (sext16 rawCurrent).natAbs * cLSB := by
      rw [Int.natAbs_mul]; simp
    have h2 : (sext16 rawCurrent).natAbs ≤ 32768 := by
      have hb := sext16_bounds rawCurrent; omega
    rw [hmul]
    calc (sext16 rawCurrent).natAbs * cLSB ≤ 32768 * 2097152 :=
          Nat.mul_le_mul h2 hc
      _ = 68719476736 := by norm_num
  have hreg : getBusMicroAmpsReg rawCurrent cLSB =
      Int.tdiv (sext16 rawCurrent * (cLSB : Int)) 1000 := by
    unfold getBusMicroAmpsReg
    have hb := tdiv1000_small _ hx
    exact wrap32_eq_self _ hb.1 hb.2
  refine ⟨fun h => ?_, ?_, fun h => ?_⟩
  · simp [getBusMicroAmps, h, hreg]
  · simp [getBusMicroAmps, isINA3221, hreg, getShuntMicroVolts260]
  · simp [getBusMicroAmps, h, getBusMicroAmps3221]

/-- Witness for C9 at concrete inputs. -/
theorem claim9_current_paths_witness :
    getBusMicroAmps .INA219 100 0 30518 100000 =
      Int.tdiv (sext16 100 * (30518 : Int)) 1000 :=
  (claim9_current_paths .INA219 100 30518 100000 0 (by decide)).1 rfl

/-- C10: the INA3221 branch of `getBusMicroAmps` computes the integer
quotient `1000000 / microOhmR` first and multiplies the shunt microvolt
value by it, so for every representable shunt resistance above one ohm
(`1000000 < microOhmR < 2^20`) the quotient is 0 and the returned current
is exactly 0 regardless of the register reading. -/
theorem claim10_quotient_first (shuntMicroVolts : Int) (microOhmR : Nat)
    (h1 : 1000000 < microOhmR) (h2 : microOhmR < 1048576) :
    getBusMicroAmps3221 shuntMicroVolts microOhmR = 0 := by
  have hz : Int.tdiv 1000000 (microOhmR : Int) = 0 :=
    Int.tdiv_eq_zero_of_lt (by norm_num) (by exact_mod_cast h1)
  unfold getBusMicroAmps3221
  rw [hz, mul_zero]
  decide

/-- Witness for C10 at concrete inputs. -/
theorem claim10_quotient_first_witness :
    getBusMicroAmps3221 987654 1048575 = 0 :=
  claim10_quotient_first 987654 1048575 (by decide) (by decide)

theorem alertMatches_false (byEq : Bool) (count dn i : Nat) (hdn : dn < count)
    (hcount : count ≤ 255) (hne : dn ≠ i) :
    alertMatches byEq count dn i = false := by
  cases byEq <;> simp [alertMatches, Nat.mod_eq_of_lt hdn] <;> omega

theorem alertMatches_true (byEq : Bool) (count dn : Nat) (hdn : dn < count) :
    alertMatches byEq count dn dn = true := by
  cases byEq <;> simp [alertMatches, Nat.mod_eq_of_lt hdn]

theorem alertRun_no_match (step : inaDet → Bool × List RegWrite) (byEq : Bool)
    (count dn : Nat) (hdn : dn < count) (hcount : count ≤ 255) :
    ∀ (ds : List inaDet) (i : Nat) (rc : Bool), dn < i →
      alertRun step byEq count dn ds i rc = (rc, []) := by
  intro ds
  induction ds with
  | nil => intro i rc h; rfl
  | cons d rest ih =>
      intro i rc h
      rw [alertRun, alertMatches_false byEq count dn i hdn hcount (by omega)]
      simp only [Bool.false_eq_true, if_false]
      exact ih (i + 1) rc (by omega)

theorem alertRun_unique (step : inaDet → Bool × List RegWrite) (byEq : Bool)
    (count dn : Nat) (hdn : dn < count) (hcount : count ≤ 255) :
    ∀ (ds : List inaDet) (i : Nat) (rc : Bool) (d0 : inaDet), i ≤ dn →
      ds[dn - i]? = some d0 → step d0 = (false, []) →
      alertRun step byEq count dn ds i rc = (false, [(dn, [])]) := by
  intro ds
  induction ds with
  | nil => intro i rc d0 hle hget hstep; simp at hget
  | cons d rest ih =>
      intro i rc d0 hle hget hstep
      by_cases hi : i = dn
      · subst hi
        have hget0 : d = d0 := by
          rw [Nat.sub_self] at hget
          simpa using hget
        subst hget0
        rw [alertRun, alertMatches_true byEq count i hdn]
        simp only [if_true, hstep,
          alertRun_no_match step byEq count i hdn hcount rest (i + 1) false
            (Nat.lt_succ_self i)]
      · have hm : alertMatches byEq count dn i = false :=
          alertMatches_false byEq count dn i hdn hcount (by omega)
        have hget1 : rest[dn - (i + 1)]? = some d0 := by
          have he : dn - i = (dn - (i + 1)) + 1 := by omega
          rw [he] at hget
          simpa using hget
        rw [alertRun, hm]
        simp only [Bool.false_eq_true, if_false]
        exact ih (i + 1) rc d0 (by omega) hget1 hstep

/-- C8: every one of the six alert-configuration methods, invoked for a
registered device whose variant has no mask/alert register (INA219 or any
INA3221 channel), returns `false` and issues no register write to that
device. -/
theorem claim8_alert_gating (devices : List inaDet) (deviceNumber : Nat)
    (d0 : inaDet) (hcount : devices.length ≤ 255)
    (hdn : deviceNumber < devices.length)
    (hget : devices[deviceNumber]? = some d0)
    (htype : d0.type = .INA219 ∨ d0.type = .INA3221_0 ∨
      d0.type = .INA3221_1 ∨ d0.type = .INA3221_2)
    (alertState : Bool) (readMask : Nat → Nat) (milliVolts milliAmps : Int) :
    AlertOnConversion alertState readMask devices deviceNumber =
      (false, [(deviceNumber, [])]) ∧
    AlertOnShuntOverVoltage alertState milliVolts readMask devices deviceNumber =
      (false, [(deviceNumber, [])]) ∧
    AlertOnShuntUnderVoltage alertState milliVolts readMask devices deviceNumber =
      (false, [(deviceNumber, [])]) ∧
    AlertOnBusOverVoltage alertState milliVolts readMask devices deviceNumber =
      (false, [(deviceNumber, [])]) ∧
    AlertOnBusUnderVoltage alertState milliVolts readMask devices deviceNumber =
      (false, [(deviceNumber, [])]) ∧
    AlertOnPowerOverLimit alertState milliAmps readMask devices deviceNumber =
      (false, [(deviceNumber, [])]) := by
  have hget0 : devices[deviceNumber - 0]? = some d0 := by simpa using hget
  refine ⟨?_, ?_, ?_, ?_, ?_, ?_⟩
  · exact alertRun_unique _ true devices.length deviceNumber hdn hcount devices
      0 false d0 (Nat.zero_le _) hget0
      (by rcases htype with h | h | h | h <;> simp [AlertOnConversionStep, h])
  · exact alertRun_unique _ true devices.length deviceNumber hdn hcount devices
      0 false d0 (Nat.zero_le _) hget0
      (by rcases htype with h | h | h | h <;> simp [AlertOnShuntOverVoltageStep, h])
  · exact alertRun_unique _ false devices.length deviceNumber hdn hcount devices
      0 true d0 (Nat.zero_le _) hget0
      (by rcases htype with h | h | h | h <;> simp [AlertOnShuntUnderVoltageStep, h])
  · exact alertRun_unique _ false devices.length deviceNumber hdn hcount devices
      0 true d0 (Nat.zero_le _) hget0
      (by rcases htype with h | h | h | h <;> simp [AlertOnBusOverVoltageStep, h])
  · exact alertRun_unique _ false devices.length deviceNumber hdn hcount devices
      0 true d0 (Nat.zero_le _) hget0
      (by rcases htype with h | h | h | h <;> simp [AlertOnBusUnderVoltageStep, h])
  · exact alertRun_unique _ false devices.length deviceNumber hdn hcount devices
      0 true d0 (Nat.zero_le _) hget0
      (by rcases htype with h | h | h | h <;> simp [AlertOnPowerOverLimitStep, h])

/-- An INA219 device record as `begin` registers it. -/
def ina219Example : inaDet := inaDetFromEE inaDetZero ⟨.INA219, 7, 0x40, 1, 100000⟩

/-- Witness for C8 at concrete inputs. -/
theorem claim8_alert_gating_witness :
    AlertOnConversion true (fun _ => 0) [ina219Example] 0 = (false, [(0, [])]) ∧
    AlertOnShuntOverVoltage true 5 (fun _ => 0) [ina219Example] 0 = (false, [(0, [])]) ∧
    AlertOnShuntUnderVoltage true 5 (fun _ => 0) [ina219Example] 0 = (false, [(0, [])]) ∧
    AlertOnBusOverVoltage true 5 (fun _ => 0) [ina219Example] 0 = (false, [(0, [])]) ∧
    AlertOnBusUnderVoltage true 5 (fun _ => 0) [ina219Example] 0 = (false, [(0, [])]) ∧
    AlertOnPowerOverLimit true 7 (fun _ => 0) [ina219Example] 0 = (false, [(0, [])]) :=
  claim8_alert_gating [ina219Example] 0 ina219Example (by decide) (by decide) rfl
    (Or.inl rfl) true (fun _ => 0) 5 7

end INA
